import Mathlib

/-!
Verification of the field-traversal and patch-accumulation core of the
agentic metadata converter (`src/assistant`).

The repository implements a LangGraph workflow whose nodes are
`plan_call` (src/assistant/manager/nodes.py), `analysis_call` and
`implement_call` (src/assistant/data_analyst/nodes.py).  Each node reads a
shared state dictionary (`AppState`, src/assistant/graph.py) and returns a
`Command(goto, update)`.  The large-language-model call inside each node is
modelled as an explicit oracle argument: `plan_call` receives the
`ActionPlan` produced from its two prompts, and the analyst/implementor
nodes receive an `Except` value (`.error e` models the Python exception
branch of the surrounding `try`).  Everything else is translated directly
from the Python source.
-/

namespace MetadataConverter

/-- Scalar JSON-ish values carried by legacy fields, mapping digests and
patch operations (the `Union[str, int, float, bool, None]` types of
src/assistant/data_analyst/models.py, with numbers as rationals). -/
inductive JValue where
  | str (s : String)
  | num (q : ℚ)
  | bool (b : Bool)
  | null
deriving DecidableEq, Repr

/-- Python `str()` of a scalar value (used when a value is interpolated
into a prompt string). -/
def JValue.pyStr : JValue → String
  | .str s => s
  | .num q => toString q
  | .bool b => if b then "True" else "False"
  | .null => "None"

/-- Python `repr()` of a scalar value (used by `str(dict)` rendering). -/
def JValue.pyRepr : JValue → String
  | .str s => "\x27" ++ s ++ "\x27"
  | .num q => toString q
  | .bool b => if b then "True" else "False"
  | .null => "None"

/-- A chat message dictionary with `role` and `content` keys, as built by
the node functions. -/
structure ChatMessage where
  role : String
  content : String
deriving DecidableEq, Repr

/-- `SchemaField` from src/assistant/data_analyst/models.py. -/
inductive FieldType where
  | text
  | categorical
  | number
deriving DecidableEq, Repr

/-- `SchemaField` (src/assistant/data_analyst/models.py, lines 5-20). -/
structure SchemaField where
  name : String
  description : String
  type : FieldType
  required : Bool
  regex : Option String := none
  default_value : Option JValue := none
  permissible_values : Option (List String) := none
deriving DecidableEq, Repr

/-- `TargetSchema` (src/assistant/data_analyst/models.py, lines 23-26). -/
structure TargetSchema where
  fields : List SchemaField
deriving DecidableEq, Repr

/-- `MappingDigest` (src/assistant/data_analyst/models.py, lines 29-36). -/
structure MappingDigest where
  target_field : String
  target_value : JValue
  confidence_score : ℚ
deriving DecidableEq, Repr

/-- `PastMappingRecord` (src/assistant/data_analyst/models.py, lines 39-51). -/
structure PastMappingRecord where
  legacy_field : String
  legacy_value : JValue
  recommended_mappings : List MappingDigest
  reasoning : String
deriving DecidableEq, Repr

/-- `PastAnalysis` (src/assistant/data_analyst/models.py, lines 54-58). -/
structure PastAnalysis where
  records : List PastMappingRecord := []
deriving DecidableEq, Repr

/-- `MappingResult` (src/assistant/data_analyst/models.py, lines 62-82). -/
structure MappingResult where
  target_field : String
  target_value : JValue
  field_analysis_notes : String
  value_analysis_notes : String
  field_similarity_score : ℚ
  value_compatibility_score : ℚ
  confidence_score : ℚ
  warnings : List String := []
deriving DecidableEq, Repr

/-- `mapping_strategy` literal of `AnalysisResult`. -/
inductive MappingStrategy where
  | one_to_one
  | one_to_many
deriving DecidableEq, Repr

/-- `AnalysisResult` (src/assistant/data_analyst/models.py, lines 85-115).
`no_mapping_reason` is declared `Optional[str] = None`: the pydantic model
imposes no link between it and `recommended_mappings`. -/
structure AnalysisResult where
  legacy_field : String
  legacy_value : JValue
  mapping_results : List MappingResult := []
  recommended_mappings : List MappingDigest := []
  overall_confidence : ℚ
  mapping_strategy : MappingStrategy
  reasoning : String
  alternative_mappings : List MappingDigest := []
  no_mapping_reason : Option String := none
deriving DecidableEq, Repr

/-- `AnalysisOutput` (src/assistant/data_analyst/models.py, lines 118-121). -/
structure AnalysisOutput where
  analysis : AnalysisResult
deriving DecidableEq, Repr

/-- RFC 6902 operation kinds, the `op` literal of `JsonPatch`. -/
inductive PatchOp where
  | add
  | remove
  | replace
  | move
  | copy
  | test
deriving DecidableEq, Repr

/-- `JsonPatch` (src/assistant/data_analyst/models.py, lines 124-139). -/
structure JsonPatch where
  op : PatchOp
  path : String
  value : Option JValue := none
  from_ : Option String := none
deriving DecidableEq, Repr

/-- `ImplementationOutput` (src/assistant/data_analyst/models.py, lines 142-147). -/
structure ImplementationOutput where
  patches : List JsonPatch
deriving DecidableEq, Repr

/-- `ActionPlan` (src/assistant/manager/models.py): the structured output
of the planner oracle. -/
inductive PlanAction where
  | analyze
  | transform
deriving DecidableEq, Repr

/-- `ActionPlan` (src/assistant/manager/models.py, lines 5-17). -/
structure ActionPlan where
  action : PlanAction
  legacy_field : String
  legacy_value : JValue
deriving DecidableEq, Repr

/-- The shared graph state (`AppState`, src/assistant/graph.py) together
with the keys the nodes read with `state.get`: `patches` is read with
default `[]` and `messages` with default `[]`, so both are plain lists
here; `analysis_result` and `target_schema` are checked for `None`. -/
structure AppState where
  messages : List ChatMessage := []
  legacy_metadata : List (String × JValue) := []
  target_schema : Option TargetSchema := none
  past_analysis : Option PastAnalysis := none
  last_checked_field : String := ""
  analysis_result : Option AnalysisResult := none
  patches : List JsonPatch := []
deriving DecidableEq, Repr

/-- The node targets a `Command.goto` can name: the three graph nodes the
source routes to, and langgraph's `END` sentinel. -/
inductive Goto where
  | analysis
  | implement
  | plan
  | END
deriving DecidableEq, Repr

/-- The partial state update a node returns in `Command(update=...)`; a
key absent from the Python dict is `none`.  `last_checked_field` is listed
because it is a state channel a node could write, even though no node in
the source ever puts it in an update. -/
structure StateUpdate where
  messages : Option (List ChatMessage) := none
  analysis_result : Option AnalysisResult := none
  patches : Option (List JsonPatch) := none
  last_checked_field : Option String := none
deriving DecidableEq, Repr

/-- `langgraph.types.Command(goto, update)`. -/
structure Command where
  goto : Goto
  update : StateUpdate
deriving DecidableEq, Repr

/-- `format_legacy_record_markdown` (src/assistant/utils.py). -/
def format_legacy_record_markdown (field : String) (value : String) : String :=
  "\n**Legacy field**: " ++ field ++ "\n**Legacy value**: " ++ value ++ "\n"

/-- Python `str()` of the `legacy_metadata` dict, as interpolated into
`PLANNER_USER_PROMPT.format(legacy_metadata=legacy_metadata)`. -/
def renderLegacyMetadata (doc : List (String × JValue)) : String :=
  "\x7b" ++
    String.intercalate ", "
      (doc.map fun p => "\x27" ++ p.1 ++ "\x27: " ++ p.2.pyRepr) ++
  "\x7d"

/-- `PLANNER_SYSTEM_PROMPT.format(last_checked_field=...)`
(src/assistant/manager/prompts.py, lines 1-19). -/
def planner_system_prompt (last_checked_field : String) : String :=
  "\n# Role\nYou are a metadata transformation planner that systematically processes legacy metadata fields.\n\n# Actions\n- **ANALYZE**: Process the next unanalyzed field\n- **TRANSFORM**: All fields analyzed, ready to apply transformation patches\n\n# Current State\nThe last checked field is: `" ++
  last_checked_field ++
  "`\n\n# Rules\n- If the last checked field is empty then select the first field from the legacy metadata, set action to \"analyze\". This is the beginning of the processing.\n- Otherwise: Find the next field after the last checked field using the same order as in the legacy metadata\n  - If next field exists: Select it, set action to \"analyze\"\n  - If no more fields remain: Set action to \"transform\"\n\nProcess fields in the same order they appear in the legacy metadata dictionary.\n"

/-- `PLANNER_USER_PROMPT.format(legacy_metadata=...)`
(src/assistant/manager/prompts.py, lines 21-27). -/
def planner_user_prompt (doc : List (String × JValue)) : String :=
  "\nProcess this following legacy metadata and determine the action plan:\n\n```json\n" ++
  renderLegacyMetadata doc ++
  "\n```\n"

/-- `plan_call` (src/assistant/manager/nodes.py, lines 15-56), given the
`ActionPlan` the structured-output LLM returned.  The Python function
mutates its argument in place (`state["last_checked_field"] =
legacy_field`, line 54) on the analyze branch; the mutated state is the
second component of the result. -/
def plan_call (state : AppState) (result : ActionPlan) : Command × AppState :=
  match result.action with
  | .analyze =>
      (⟨.analysis,
        { messages := some
            [⟨"user",
              "Analyze this legacy metadata field and value:\n" ++
                format_legacy_record_markdown result.legacy_field
                  result.legacy_value.pyStr⟩] }⟩,
       { state with last_checked_field := result.legacy_field })
  | .transform => (⟨.END, {}⟩, state)

/-- `plan_call` with the LLM modelled as a function of the exact two
prompt strings the source passes to `llm.invoke` — the only data the node
sends it. -/
def plan_call_run (oracle : String → String → ActionPlan) (state : AppState) :
    Command × AppState :=
  plan_call state
    (oracle (planner_system_prompt state.last_checked_field)
      (planner_user_prompt state.legacy_metadata))

/-- The field pair immediately following the entry named `last` in the
document's insertion order, if any. -/
def nextAfter (last : String) : List (String × JValue) → Option (String × JValue)
  | [] => none
  | (f, _) :: rest => if f = last then rest.head? else nextAfter last rest

/-- Modelled from the spec: the traversal decision itself is produced by
the planner oracle; its algorithm is fixed by the rules of
`PLANNER_SYSTEM_PROMPT` (src/assistant/manager/prompts.py) and spec §4.1.
Empty `last_checked_field` selects the first field (an empty document has
no first field, so nothing remains and the action is `transform`);
otherwise the field after `last_checked_field` in insertion order is
selected, or `transform` when none follows.  Neither the prompt nor the
spec-described code defines any behaviour when `last_checked_field` is
non-empty and absent from the document: that case is `none`. -/
def plannerDecision (doc : List (String × JValue)) (last : String) :
    Option ActionPlan :=
  if last = "" then
    match doc.head? with
    | some (f, v) => some ⟨.analyze, f, v⟩
    | none => some ⟨.transform, "", .null⟩
  else if doc.any (fun p => p.1 = last) then
    match nextAfter last doc with
    | some (f, v) => some ⟨.analyze, f, v⟩
    | none => some ⟨.transform, "", .null⟩
  else
    none

/-- `analysis_call` (src/assistant/data_analyst/nodes.py, lines 18-122),
with the structured-output LLM call modelled as an `Except` argument
(`.error e` is the `except Exception as e` branch, with `str(e) = e`).
The source's guard order: empty `messages` → `Command(END, update={})`;
falsy `last_checked_field` → `Command(END, update={})`; missing
`target_schema` → failure message; otherwise the oracle result is stored
verbatim (`result.analysis.model_dump()`) under `analysis_result` and
control goes to `implement`. -/
def analysis_call (state : AppState) (oracle : Except String AnalysisOutput) :
    Command :=
  match state.messages with
  | [] => ⟨.END, {}⟩
  | _ :: _ =>
    if state.last_checked_field = "" then
      ⟨.END, {}⟩
    else
      match state.target_schema with
      | none =>
          ⟨.END,
            { messages := some
                [⟨"assistant",
                  "Analysis failed for " ++ state.last_checked_field ++
                    ": No target schema available"⟩] }⟩
      | some _ =>
          match oracle with
          | .error e =>
              ⟨.END,
                { messages := some
                    [⟨"assistant",
                      "Analysis failed for " ++ state.last_checked_field ++
                        ": " ++ e⟩] }⟩
          | .ok result =>
              ⟨.implement,
                { messages := some
                    [⟨"assistant",
                      "Analysis completed for " ++ state.last_checked_field ++
                        ". Generated " ++
                        toString result.analysis.recommended_mappings.length ++
                        " recommended mappings with overall confidence " ++
                        toString result.analysis.overall_confidence ++ "."⟩],
                  analysis_result := some result.analysis }⟩

/-- `implement_call` (src/assistant/data_analyst/nodes.py, lines 125-215),
with the structured-output LLM call modelled as an `Except` argument.
Guard order from the source: empty `messages` → `Command(END, update={})`;
missing `analysis_result` → failure message (no field named); exception →
`"Implementation failed: " ++ e` (no field named); success → patches
update `existing_patches + result.patches` and `goto="plan"`. -/
def implement_call (state : AppState)
    (oracle : Except String ImplementationOutput) : Command :=
  match state.messages with
  | [] => ⟨.END, {}⟩
  | _ :: _ =>
    match state.analysis_result with
    | none =>
        ⟨.END,
          { messages := some
              [⟨"assistant",
                "Implementation failed: No analysis result available"⟩] }⟩
    | some analysis_result =>
        match oracle with
        | .error e =>
            ⟨.END,
              { messages := some
                  [⟨"assistant", "Implementation failed: " ++ e⟩] }⟩
        | .ok result =>
            ⟨.plan,
              { messages := some
                  [⟨"assistant",
                    "Implementation completed for " ++
                      analysis_result.legacy_field ++ ". Generated " ++
                      toString result.patches.length ++
                      " JSON Patch operations to transform the legacy metadata."⟩],
                patches := some (state.patches ++ result.patches) }⟩

/-- The confidence formula of the analyst instructions
(`ANALYST_SYSTEM_PROMPT`, src/assistant/data_analyst/prompts.py, lines
145-152, matching spec §4.2): `base = (field_similarity_score +
value_compatibility_score) / 2`, `*= 0.8` on any data-loss warning,
`*= 0.9` on a multi-step transformation, forced to `0.0` when the target
field is required and the value cannot satisfy it.  The formula is stated
only as oracle instructions; no function in src recomputes it. -/
def confidenceScore (field_similarity value_compatibility : ℚ)
    (hasDataLossWarning requiresMultiStep requiredUnsatisfiable : Bool) : ℚ :=
  let base := (field_similarity + value_compatibility) / 2
  let base := if hasDataLossWarning then base * (8 / 10) else base
  let base := if requiresMultiStep then base * (9 / 10) else base
  if requiredUnsatisfiable then 0 else base

/-- RFC 6901 escaping of one path segment (`~` → `~0`, then `/` → `~1`),
as prescribed by the JSON Pointer path rules of `IMPLEMENTOR_SYSTEM_PROMPT`
(src/assistant/data_analyst/prompts.py) and spec §4.3 rule 4. -/
def escapeSegment (s : String) : String :=
  String.mk (s.data.flatMap fun c =>
    if c = Char.ofNat 126 then [Char.ofNat 126, Char.ofNat 48]
    else if c = Char.ofNat 47 then [Char.ofNat 126, Char.ofNat 49]
    else [c])

/-- The JSON Pointer for a root-level field: `"/" ++` escaped name. -/
def pointerOf (field : String) : String :=
  "/" ++ escapeSegment field

/-- Modelled from the spec: the patch-synthesis algorithm is executed by
the implementor oracle; its rules are fixed by `IMPLEMENTOR_SYSTEM_PROMPT`
(src/assistant/data_analyst/prompts.py: scenarios 1-5, "Order of
Operations" add-before-remove, special case for empty
`recommended_mappings`) and spec §4.3.  Empty `recommended_mappings` →
exactly one `remove` at the legacy pointer.  Otherwise each recommended
mapping in order yields `replace` at the legacy pointer when the target
field name equals the legacy field name, else `add` at the target pointer;
a single trailing `remove` of the legacy field is emitted iff some mapping
was an `add` (renamed or split). -/
def synthesize (ar : AnalysisResult) : List JsonPatch :=
  match ar.recommended_mappings with
  | [] => [{ op := .remove, path := pointerOf ar.legacy_field }]
  | mappings =>
      let ops := mappings.map fun m =>
        if m.target_field = ar.legacy_field then
          ({ op := .replace, path := pointerOf ar.legacy_field,
             value := some m.target_value } : JsonPatch)
        else
          { op := .add, path := pointerOf m.target_field,
            value := some m.target_value }
      let hasAdd := mappings.any fun m => m.target_field ≠ ar.legacy_field
      ops ++
        (if hasAdd then [{ op := .remove, path := pointerOf ar.legacy_field }]
         else [])

/-- A constant planner oracle answering `transform` to any prompts (used
to instantiate determinism statements on concrete inputs). -/
def constTransformOracle : String → String → ActionPlan :=
  fun _ _ => ⟨.transform, "", .null⟩

/-- A one-field target schema (the `parent_sample_id` field of the repo's
test fixtures). -/
def sampleSchema : TargetSchema :=
  ⟨[{ name := "parent_sample_id",
      description := "Unique HuBMAP identifier of the sample",
      type := .text, required := true }]⟩

/-- A successful analysis result mirroring the fixture of
tests/test_implement_call.py: `sample_id` renamed to `parent_sample_id`. -/
def sampleAnalysis : AnalysisResult :=
  { legacy_field := "sample_id",
    legacy_value := .str "HBM386.ZGKG.235",
    recommended_mappings :=
      [⟨"parent_sample_id", .str "HBM386.ZGKG.235", 95 / 100⟩],
    overall_confidence := 95 / 100,
    mapping_strategy := .one_to_one,
    reasoning := "Direct field mapping with high confidence" }

/-- The state in which `implement_call` runs after a successful analysis
of `sample_id` (mirrors the `base_state` fixture of
tests/test_implement_call.py). -/
def sampleImplState : AppState :=
  { messages :=
      [⟨"assistant",
        "Analysis completed for sample_id. Generated 1 recommended mappings with overall confidence 0.95."⟩],
    analysis_result := some sampleAnalysis }

/-- Patches the implementor oracle returns for `sampleAnalysis`. -/
def samplePatches : ImplementationOutput :=
  ⟨[{ op := .add, path := "/parent_sample_id",
      value := some (.str "HBM386.ZGKG.235") },
    { op := .remove, path := "/sample_id" }]⟩

/-- A pre-existing accumulated patch (mirrors
`test_implement_call_accumulates_patches_correctly`). -/
def existingPatch : JsonPatch :=
  { op := .replace, path := "/existing_field",
    value := some (.str "existing_value") }

/-- `sampleImplState` with one patch already accumulated. -/
def implStateWithPatch : AppState :=
  { sampleImplState with patches := [existingPatch] }

/-- An analysis result with no viable mapping, mirroring the
`no_mapping_analysis` fixture of tests/test_implement_call.py — which,
like the pydantic default, leaves `no_mapping_reason` unset. -/
def noMappingAnalysis : AnalysisResult :=
  { legacy_field := "deprecated_field",
    legacy_value := .str "obsolete_value",
    recommended_mappings := [],
    overall_confidence := 0,
    mapping_strategy := .one_to_one,
    reasoning := "No suitable target field found for this legacy field" }

/-- An analysis result whose only recommended mapping keeps the field
name and changes the value (spec Scenario B: `dataset_type`). -/
def replaceOnlyAnalysis : AnalysisResult :=
  { legacy_field := "dataset_type",
    legacy_value := .str "rna_seq",
    recommended_mappings := [⟨"dataset_type", .str "RNAseq", 9 / 10⟩],
    overall_confidence := 9 / 10,
    mapping_strategy := .one_to_one,
    reasoning := "Permissible value normalization" }

/-- The state in which `analysis_call` runs on `sample_id`. -/
def analysisState : AppState :=
  { messages :=
      [⟨"user",
        "Analyze this legacy metadata field and value:\n\n**Legacy field**: sample_id\n**Legacy value**: HBM386.ZGKG.235\n"⟩],
    last_checked_field := "sample_id",
    target_schema := some sampleSchema }

/-- A state lacking the target schema (while a field is under analysis). -/
def noSchemaState : AppState :=
  { messages := [⟨"user", "Analyze this legacy metadata field and value"⟩],
    last_checked_field := "sample_id" }

/-- An oracle answer whose candidate carries perfect similarity and
compatibility scores, no warnings, yet a self-reported confidence of 0.3 —
the deterministic formula would give 1.0. -/
def inflatedOracleOutput : AnalysisOutput :=
  ⟨{ legacy_field := "sample_id",
     legacy_value := .str "HBM386.ZGKG.235",
     mapping_results :=
       [{ target_field := "parent_sample_id",
          target_value := .str "HBM386.ZGKG.235",
          field_analysis_notes := "Exact semantic match",
          value_analysis_notes := "Value passes validation",
          field_similarity_score := 1,
          value_compatibility_score := 1,
          confidence_score := 3 / 10,
          warnings := [] }],
     recommended_mappings :=
       [⟨"parent_sample_id", .str "HBM386.ZGKG.235", 3 / 10⟩],
     overall_confidence := 3 / 10,
     mapping_strategy := .one_to_one,
     reasoning := "r" }⟩

theorem nextAfter_append (last : String) (v : JValue)
    (pre rest : List (String × JValue)) (h : last ∉ pre.map Prod.fst) :
    nextAfter last (pre ++ (last, v) :: rest) = rest.head? := by
  induction pre with
  | nil => simp [nextAfter]
  | cons p pre ih =>
    rcases p with ⟨f, w⟩
    rw [List.map_cons, List.mem_cons] at h
    push_neg at h
    rw [List.cons_append]
    show (if f = last then _ else nextAfter last (pre ++ (last, v) :: rest)) = _
    rw [if_neg fun hf => h.1 hf.symm]
    exact ih h.2

/-- C2. The planner decision follows the document's insertion order: an
empty `last_checked_field` selects the first field (and `plan_call` routes
to the analysis node); otherwise the field immediately following
`last_checked_field` is selected; when no field follows, the action is
`transform`, which `plan_call` routes to the terminal `END` node. -/
theorem planner_traversal_order (doc : List (String × JValue)) (s : AppState) :
    (∀ f v rest, doc = (f, v) :: rest →
        plannerDecision doc "" = some ⟨.analyze, f, v⟩ ∧
        (plan_call s ⟨.analyze, f, v⟩).1.goto = .analysis) ∧
    (∀ last pre v f2 v2 post, last ≠ "" → last ∉ pre.map Prod.fst →
        doc = pre ++ (last, v) :: (f2, v2) :: post →
        plannerDecision doc last = some ⟨.analyze, f2, v2⟩ ∧
        (plan_call s ⟨.analyze, f2, v2⟩).1.goto = .analysis) ∧
    (∀ last pre v, last ≠ "" → last ∉ pre.map Prod.fst →
        doc = pre ++ [(last, v)] →
        plannerDecision doc last = some ⟨.transform, "", .null⟩ ∧
        (plan_call s ⟨.transform, "", .null⟩).1.goto = .END) := by
  refine ⟨?_, ?_, ?_⟩
  · rintro f v rest rfl
    exact ⟨by simp [plannerDecision], rfl⟩
  · rintro last pre v f2 v2 post hne hpre rfl
    have hany :
        ((pre ++ (last, v) :: (f2, v2) :: post).any fun p => p.1 = last) = true := by
      simp [List.any_append]
    refine ⟨?_, rfl⟩
    simp only [plannerDecision, if_neg hne, hany, if_true,
      nextAfter_append last v pre ((f2, v2) :: post) hpre, List.head?]
  · rintro last pre v hne hpre rfl
    have hany : ((pre ++ [(last, v)]).any fun p => p.1 = last) = true := by
      simp [List.any_append]
    refine ⟨?_, rfl⟩
    simp only [plannerDecision, if_neg hne, hany, if_true,
      nextAfter_append last v pre [] hpre, List.head?]

/-- C2 witness: the three traversal cases on the concrete two-field
document `[("a", "1"), ("b", "2")]`. -/
theorem planner_traversal_order_witness :
    plannerDecision [("a", JValue.str "1"), ("b", JValue.str "2")] "" =
      some ⟨.analyze, "a", JValue.str "1"⟩ ∧
    plannerDecision [("a", JValue.str "1"), ("b", JValue.str "2")] "a" =
      some ⟨.analyze, "b", JValue.str "2"⟩ ∧
    plannerDecision [("a", JValue.str "1"), ("b", JValue.str "2")] "b" =
      some ⟨.transform, "", JValue.null⟩ ∧
    (plan_call {} (⟨.transform, "", JValue.null⟩ : ActionPlan)).1.goto = .END :=
  ⟨((planner_traversal_order [("a", JValue.str "1"), ("b", JValue.str "2")] {}).1
      "a" (JValue.str "1") [("b", JValue.str "2")] rfl).1,
   ((planner_traversal_order [("a", JValue.str "1"), ("b", JValue.str "2")] {}).2.1
      "a" [] (JValue.str "1") "b" (JValue.str "2") [] (by decide) (by simp) rfl).1,
   ((planner_traversal_order [("a", JValue.str "1"), ("b", JValue.str "2")] {}).2.2
      "b" [("a", JValue.str "1")] (JValue.str "2") (by decide) (by simp) rfl).1,
   ((planner_traversal_order [("a", JValue.str "1"), ("b", JValue.str "2")] {}).2.2
      "b" [("a", JValue.str "1")] (JValue.str "2") (by decide) (by simp) rfl).2⟩

/-- C1 counterexample: `plan_call` is not side-effect-free on its input.
On the analyze branch the source executes `state["last_checked_field"] =
legacy_field` (src/assistant/manager/nodes.py line 54), mutating the state
dictionary that was passed in: the state after the call differs from the
state before it. -/
theorem plan_call_side_effect_counterexample :
    (plan_call
        { legacy_metadata := [("title", JValue.str "Test Document")],
          last_checked_field := "" }
        ⟨.analyze, "title", JValue.str "Test Document"⟩).2 ≠
      { legacy_metadata := [("title", JValue.str "Test Document")],
        last_checked_field := "" } := by
  intro h
  have h2 : ("title" : String) = "" := congrArg AppState.last_checked_field h
  exact absurd h2 (by decide)

/-- C1 (amended): the planner's next-field decision is deterministic and
depends only on `(legacy_metadata, last_checked_field)` — the two prompts
sent to the oracle are built from exactly those fields — but the call is
not side-effect-free: on the analyze branch it overwrites the input
state's `last_checked_field` with the selected field; only the transform
branch leaves the state untouched. -/
theorem plan_call_deterministic_but_mutating :
    (∀ (oracle : String → String → ActionPlan) (s₁ s₂ : AppState),
        s₁.legacy_metadata = s₂.legacy_metadata →
        s₁.last_checked_field = s₂.last_checked_field →
        (plan_call_run oracle s₁).1 = (plan_call_run oracle s₂).1 ∧
        (plan_call_run oracle s₁).2.last_checked_field =
          (plan_call_run oracle s₂).2.last_checked_field) ∧
    (∀ (s : AppState) (ap : ActionPlan),
        (ap.action = .analyze →
          (plan_call s ap).2 = { s with last_checked_field := ap.legacy_field }) ∧
        (ap.action = .transform → (plan_call s ap).2 = s)) := by
  constructor
  · intro oracle s₁ s₂ hm hl
    unfold plan_call_run
    rw [hm, hl]
    rcases h :
        oracle (planner_system_prompt s₂.last_checked_field)
          (planner_user_prompt s₂.legacy_metadata) with ⟨act, f, v⟩
    cases act with
    | analyze => exact ⟨rfl, rfl⟩
    | transform => exact ⟨rfl, hl⟩
  · intro s ap
    rcases ap with ⟨act, f, v⟩
    cases act with
    | analyze => exact ⟨fun _ => rfl, (fun h => nomatch h)⟩
    | transform => exact ⟨(fun h => nomatch h), fun _ => rfl⟩

/-- C1 witness: determinism on two states agreeing on
`(legacy_metadata, last_checked_field)` but differing in `messages`, and
the mutation equation at a concrete analyze plan. -/
theorem plan_call_deterministic_but_mutating_witness :
    (plan_call_run constTransformOracle
        { messages := [⟨"user", "noise"⟩] }).1 =
      (plan_call_run constTransformOracle {}).1 ∧
    (plan_call {} (⟨.analyze, "f", JValue.null⟩ : ActionPlan)).2 =
      { last_checked_field := "f" } :=
  ⟨(plan_call_deterministic_but_mutating.1 constTransformOracle
      { messages := [⟨"user", "noise"⟩] } {} rfl rfl).1,
   (plan_call_deterministic_but_mutating.2 {}
      (⟨.analyze, "f", JValue.null⟩ : ActionPlan)).1 rfl⟩

/-- C9 counterexample: a non-empty `last_checked_field` absent from the
document does not produce a `FieldNotFound` failure — no such error exists
in the source.  The planner prompt has no rule for this case
(`plannerDecision` is unspecified, `none`), and `plan_call` can only route
to `analysis` or `END`: with a `transform` oracle answer it reports the
normal exhaustion transition, with an `analyze` answer it selects a field. -/
theorem fieldnotfound_absent_counterexample :
    plannerDecision [("a", JValue.str "1")] "missing" = none ∧
    (plan_call
        { legacy_metadata := [("a", JValue.str "1")],
          last_checked_field := "missing" }
        ⟨.transform, "", JValue.null⟩).1.goto = Goto.END ∧
    (plan_call
        { legacy_metadata := [("a", JValue.str "1")],
          last_checked_field := "missing" }
        ⟨.analyze, "a", JValue.str "1"⟩).1.goto = Goto.analysis := by
  refine ⟨?_, rfl, rfl⟩
  decide

/-- C9 (amended): the code has no `FieldNotFound` error path.  `plan_call`
always returns `goto = analysis` or `goto = END`, whatever the state and
oracle answer; and the planner rules leave a non-empty
`last_checked_field` that is absent from the document unspecified. -/
theorem plan_call_has_no_failure_outcome :
    (∀ (s : AppState) (ap : ActionPlan),
        (plan_call s ap).1.goto = .analysis ∨ (plan_call s ap).1.goto = .END) ∧
    (∀ (doc : List (String × JValue)) (last : String),
        last ≠ "" → last ∉ doc.map Prod.fst →
        plannerDecision doc last = none) := by
  constructor
  · intro s ap
    rcases ap with ⟨act, f, v⟩
    cases act with
    | analyze => exact Or.inl rfl
    | transform => exact Or.inr rfl
  · intro doc last hne hmem
    have hany : (doc.any fun p => p.1 = last) = false := by
      rw [List.any_eq_false]
      intro p hp hpl
      exact hmem (by
        have : p.1 = last := by simpa using hpl
        exact this ▸ List.mem_map_of_mem Prod.fst hp)
    simp [plannerDecision, hne, hany]

/-- C9 witness: the amended statement instantiated on a concrete corrupted
state. -/
theorem plan_call_has_no_failure_outcome_witness :
    ((plan_call
        { legacy_metadata := [("a", JValue.str "1")],
          last_checked_field := "missing" }
        (⟨.transform, "", JValue.null⟩ : ActionPlan)).1.goto = .analysis ∨
      (plan_call
        { legacy_metadata := [("a", JValue.str "1")],
          last_checked_field := "missing" }
        (⟨.transform, "", JValue.null⟩ : ActionPlan)).1.goto = .END) ∧
    plannerDecision [("a", JValue.str "1")] "missing" = none :=
  ⟨plan_call_has_no_failure_outcome.1
      { legacy_metadata := [("a", JValue.str "1")],
        last_checked_field := "missing" }
      (⟨.transform, "", JValue.null⟩ : ActionPlan),
   plan_call_has_no_failure_outcome.2 [("a", JValue.str "1")] "missing"
      (by decide) (by simp)⟩

/-- C3 counterexample: a successful implementing step returns to the
planning node but its update contains no `last_checked_field` entry — the
implementing step does not perform that update (it is `plan_call` that
overwrites the field, at selection time). -/
theorem implement_update_lacks_field_counterexample :
    (implement_call sampleImplState (.ok samplePatches)).goto = Goto.plan ∧
    (implement_call sampleImplState (.ok samplePatches)).update.last_checked_field =
      none :=
  ⟨rfl, rfl⟩

/-- C3 (amended): after a successful implementing step control returns to
`plan` and the update carries no `last_checked_field`; the field is
instead written by `plan_call` when it selects a field for analysis
(src/assistant/manager/nodes.py line 54), so at implementation time it
already names the field being processed. -/
theorem implement_returns_to_plan_without_setting_field :
    (∀ (s : AppState) (out : ImplementationOutput), s.messages ≠ [] →
        ∀ ar, s.analysis_result = some ar →
        (implement_call s (.ok out)).goto = .plan ∧
        (implement_call s (.ok out)).update.last_checked_field = none) ∧
    (∀ (st : AppState) (ap : ActionPlan), ap.action = .analyze →
        (plan_call st ap).2.last_checked_field = ap.legacy_field) := by
  constructor
  · intro s out hm ar har
    cases hmsg : s.messages with
    | nil => exact absurd hmsg hm
    | cons m ms => simp [implement_call, hmsg, har]
  · intro st ap hap
    rcases ap with ⟨act, f, v⟩
    cases act with
    | analyze => rfl
    | transform => exact nomatch hap

/-- C3 witness: the amended statement at the repo's test fixture. -/
theorem implement_returns_to_plan_without_setting_field_witness :
    ((implement_call sampleImplState (.ok samplePatches)).goto = .plan ∧
      (implement_call sampleImplState (.ok samplePatches)).update.last_checked_field =
        none) ∧
    (plan_call {} (⟨.analyze, "sample_id", JValue.str "HBM386.ZGKG.235"⟩ :
        ActionPlan)).2.last_checked_field = "sample_id" :=
  ⟨implement_returns_to_plan_without_setting_field.1 sampleImplState
      samplePatches (by simp [sampleImplState]) sampleAnalysis rfl,
   implement_returns_to_plan_without_setting_field.2 {}
      (⟨.analyze, "sample_id", JValue.str "HBM386.ZGKG.235"⟩ : ActionPlan) rfl⟩

/-- C4. The cumulative patch list is append-only: a successful
implementation step writes exactly `existing_patches + result.patches`
(src/assistant/data_analyst/nodes.py line 202), so the previous list is a
prefix of the new one with the new operations appended; and every patches
entry any `implement_call` ever writes has the incoming list as a prefix. -/
theorem patches_append_only :
    (∀ (s : AppState) (out : ImplementationOutput), s.messages ≠ [] →
        ∀ ar, s.analysis_result = some ar →
        (implement_call s (.ok out)).update.patches =
          some (s.patches ++ out.patches)) ∧
    (∀ (s : AppState) (r : Except String ImplementationOutput)
        (ps : List JsonPatch),
        (implement_call s r).update.patches = some ps → s.patches <+: ps) := by
  constructor
  · intro s out hm ar har
    cases hmsg : s.messages with
    | nil => exact absurd hmsg hm
    | cons m ms => simp [implement_call, hmsg, har]
  · intro s r ps h
    cases hmsg : s.messages with
    | nil => simp [implement_call, hmsg] at h
    | cons m ms =>
      cases har : s.analysis_result with
      | none => simp [implement_call, hmsg, har] at h
      | some ar =>
        cases r with
        | error e => simp [implement_call, hmsg, har] at h
        | ok out =>
          have heq : (implement_call s (.ok out)).update.patches =
              some (s.patches ++ out.patches) := by
            simp [implement_call, hmsg, har]
          rw [heq] at h
          exact ⟨out.patches, Option.some.inj h⟩

/-- C4 witness: accumulation on a state holding one prior patch (the
repo's accumulation test). -/
theorem patches_append_only_witness :
    (implement_call implStateWithPatch (.ok samplePatches)).update.patches =
      some (implStateWithPatch.patches ++ samplePatches.patches) ∧
    implStateWithPatch.patches <+:
      (implStateWithPatch.patches ++ samplePatches.patches) :=
  ⟨patches_append_only.1 implStateWithPatch samplePatches
      (by simp [implStateWithPatch, sampleImplState]) sampleAnalysis rfl,
   patches_append_only.2 implStateWithPatch (.ok samplePatches)
      (implStateWithPatch.patches ++ samplePatches.patches)
      (patches_append_only.1 implStateWithPatch samplePatches
        (by simp [implStateWithPatch, sampleImplState]) sampleAnalysis rfl)⟩

/-- C10. When the patch-generation call raises, `implement_call` routes to
the terminal `END` node with an update that has no patches entry, so the
accumulated patch list is exactly what it was before the failing step —
and the same holds on the guard branches where the call is never made. -/
theorem implement_exception_preserves_patches :
    ∀ (s : AppState) (e : String),
      (implement_call s (.error e)).goto = .END ∧
      (implement_call s (.error e)).update.patches = none := by
  intro s e
  cases hmsg : s.messages with
  | nil => simp [implement_call, hmsg]
  | cons m ms =>
    cases har : s.analysis_result with
    | none => simp [implement_call, hmsg, har]
    | some ar => simp [implement_call, hmsg, har]

/-- C8 counterexample: an abort that reports nothing.  When `messages` is
empty, `analysis_call` returns `Command(END, update={})` — the run stops
with an entirely empty update: no failing field, no phase, no cause. -/
theorem abort_empty_update_counterexample :
    analysis_call ({} : AppState) (.error "oracle unavailable") =
      ⟨Goto.END, {}⟩ ∧
    (analysis_call ({} : AppState) (.error "oracle unavailable")).update.messages =
      none :=
  ⟨rfl, rfl⟩

/-- C8 (amended): every failure path stops the run — `analysis_call` only
ever routes to `implement` or `END`, so no later field is processed after
a failure.  The no-target-schema and oracle-exception aborts report the
failing field and the cause in an assistant message; but implementation
failures report only the cause (no field), and the missing-messages and
missing-field guards abort with an empty update. -/
theorem failure_stops_run_with_cause_reported :
    (∀ (s : AppState) (o : Except String AnalysisOutput),
        (analysis_call s o).goto = .implement ∨ (analysis_call s o).goto = .END) ∧
    (∀ (s : AppState) (o : Except String AnalysisOutput),
        s.messages ≠ [] → s.last_checked_field ≠ "" → s.target_schema = none →
        (analysis_call s o).goto = .END ∧
        (analysis_call s o).update.messages =
          some [⟨"assistant",
            "Analysis failed for " ++ s.last_checked_field ++
              ": No target schema available"⟩]) ∧
    (∀ (s : AppState) (e : String) (ts : TargetSchema),
        s.messages ≠ [] → s.last_checked_field ≠ "" →
        s.target_schema = some ts →
        (analysis_call s (.error e)).goto = .END ∧
        (analysis_call s (.error e)).update.messages =
          some [⟨"assistant",
            "Analysis failed for " ++ s.last_checked_field ++ ": " ++ e⟩]) ∧
    (∀ (s : AppState) (e : String), s.messages ≠ [] →
        ∀ ar, s.analysis_result = some ar →
        (implement_call s (.error e)).goto = .END ∧
        (implement_call s (.error e)).update.messages =
          some [⟨"assistant", "Implementation failed: " ++ e⟩]) := by
  refine ⟨?_, ?_, ?_, ?_⟩
  · intro s o
    cases hmsg : s.messages with
    | nil => exact Or.inr (by simp [analysis_call, hmsg])
    | cons m ms =>
      by_cases hl : s.last_checked_field = ""
      · exact Or.inr (by simp [analysis_call, hmsg, hl])
      · cases hts : s.target_schema with
        | none => exact Or.inr (by simp [analysis_call, hmsg, hl, hts])
        | some ts =>
          cases o with
          | error e => exact Or.inr (by simp [analysis_call, hmsg, hl, hts])
          | ok res => exact Or.inl (by simp [analysis_call, hmsg, hl, hts])
  · intro s o hm hl hts
    cases hmsg : s.messages with
    | nil => exact absurd hmsg hm
    | cons m ms => simp [analysis_call, hmsg, hl, hts]
  · intro s e ts hm hl hts
    cases hmsg : s.messages with
    | nil => exact absurd hmsg hm
    | cons m ms => simp [analysis_call, hmsg, hl, hts]
  · intro s e hm ar har
    cases hmsg : s.messages with
    | nil => exact absurd hmsg hm
    | cons m ms => simp [implement_call, hmsg, har]

/-- C8 witness: the reporting branches at concrete failing states. -/
theorem failure_stops_run_with_cause_reported_witness :
    ((analysis_call noSchemaState (.error "e")).goto = .END ∧
      (analysis_call noSchemaState (.error "e")).update.messages =
        some [⟨"assistant",
          "Analysis failed for " ++ noSchemaState.last_checked_field ++
            ": No target schema available"⟩]) ∧
    ((analysis_call analysisState (.error "boom")).goto = .END ∧
      (analysis_call analysisState (.error "boom")).update.messages =
        some [⟨"assistant",
          "Analysis failed for " ++ analysisState.last_checked_field ++
            ": " ++ "boom"⟩]) ∧
    ((implement_call sampleImplState (.error "API connection failed")).goto =
        .END ∧
      (implement_call sampleImplState
          (.error "API connection failed")).update.messages =
        some [⟨"assistant",
          "Implementation failed: " ++ "API connection failed"⟩]) :=
  ⟨failure_stops_run_with_cause_reported.2.1 noSchemaState (.error "e")
      (by simp [noSchemaState]) (by decide) rfl,
   failure_stops_run_with_cause_reported.2.2.1 analysisState "boom"
      sampleSchema (by simp [analysisState]) (by decide) rfl,
   failure_stops_run_with_cause_reported.2.2.2 sampleImplState
      "API connection failed" (by simp [sampleImplState]) sampleAnalysis rfl⟩

/-- C6 counterexample: the core does not recompute confidence.  The oracle
reports a candidate with `field_similarity_score = 1`,
`value_compatibility_score = 1`, no warnings — for which the deterministic
formula yields 1 — but a self-reported `confidence_score = 0.3`;
`analysis_call` stores the oracle's analysis verbatim, 0.3 included. -/
theorem confidence_not_recomputed_counterexample :
    (analysis_call analysisState (.ok inflatedOracleOutput)).update.analysis_result =
      some inflatedOracleOutput.analysis ∧
    inflatedOracleOutput.analysis.mapping_results.map
        (fun m => confidenceScore m.field_similarity_score
          m.value_compatibility_score (!m.warnings.isEmpty) false false) =
      [1] ∧
    inflatedOracleOutput.analysis.mapping_results.map
        (fun m => m.confidence_score) = [3 / 10] ∧
    (3 / 10 : ℚ) ≠ 1 := by
  refine ⟨?_, ?_, rfl, by norm_num⟩
  · simp [analysis_call, analysisState]
  · norm_num [inflatedOracleOutput, confidenceScore]

/-- C6 (amended): the confidence formula — stated as oracle instructions
in `ANALYST_SYSTEM_PROMPT`, not recomputed by any function in src — maps
scores in `[0,1]` to a confidence in `[0,1]`; the core (`analysis_call`)
stores whatever analysis the oracle returns, unchanged. -/
theorem confidence_formula_bounds_and_passthrough :
    (∀ (fs vc : ℚ) (w m r : Bool), 0 ≤ fs → fs ≤ 1 → 0 ≤ vc → vc ≤ 1 →
        0 ≤ confidenceScore fs vc w m r ∧ confidenceScore fs vc w m r ≤ 1) ∧
    (∀ (s : AppState) (out : AnalysisOutput), s.messages ≠ [] →
        s.last_checked_field ≠ "" → ∀ ts, s.target_schema = some ts →
        (analysis_call s (.ok out)).update.analysis_result =
          some out.analysis) := by
  constructor
  · intro fs vc w m r h0f h1f h0v h1v
    have hb0 : 0 ≤ (fs + vc) / 2 := by linarith
    have hb1 : (fs + vc) / 2 ≤ 1 := by linarith
    cases w <;> cases m <;> cases r <;>
      simp only [confidenceScore, if_true, if_false, Bool.false_eq_true,
        ite_true, ite_false] <;>
      constructor <;> nlinarith [hb0, hb1]
  · intro s out hm hl ts hts
    cases hmsg : s.messages with
    | nil => exact absurd hmsg hm
    | cons m ms => simp [analysis_call, hmsg, hl, hts]

/-- C6 witness: the bounds at concrete scores with both multipliers, and
the pass-through at the concrete oracle output. -/
theorem confidence_formula_bounds_and_passthrough_witness :
    (0 ≤ confidenceScore (1 / 2) (3 / 4) true true false ∧
      confidenceScore (1 / 2) (3 / 4) true true false ≤ 1) ∧
    (analysis_call analysisState (.ok inflatedOracleOutput)).update.analysis_result =
      some inflatedOracleOutput.analysis :=
  ⟨confidence_formula_bounds_and_passthrough.1 (1 / 2) (3 / 4) true true false
      (by norm_num) (by norm_num) (by norm_num) (by norm_num),
   confidence_formula_bounds_and_passthrough.2 analysisState
      inflatedOracleOutput (by simp [analysisState]) (by decide)
      sampleSchema rfl⟩

theorem synthesize_eq_of_ne_nil (ar : AnalysisResult)
    (h : ar.recommended_mappings ≠ []) :
    synthesize ar =
      (ar.recommended_mappings.map fun m =>
        if m.target_field = ar.legacy_field then
          ({ op := .replace, path := pointerOf ar.legacy_field,
             value := some m.target_value } : JsonPatch)
        else
          { op := .add, path := pointerOf m.target_field,
            value := some m.target_value }) ++
      (if ar.recommended_mappings.any (fun m => m.target_field ≠ ar.legacy_field)
        then [{ op := .remove, path := pointerOf ar.legacy_field }] else []) := by
  cases hrec : ar.recommended_mappings with
  | nil => exact absurd hrec h
  | cons m ms => simp [synthesize, hrec]

/-- C5. Whenever at least one recommended mapping renames the legacy field
(`target_field ≠ legacy_field`), the synthesized script is all the
`add`/`replace` operations followed by one trailing `remove` of the legacy
pointer — never interleaved; and when every recommended mapping keeps the
field name, every emitted operation is a `replace` and no `remove` is
emitted. -/
theorem synthesize_add_before_remove (ar : AnalysisResult) :
    ((∃ m ∈ ar.recommended_mappings, m.target_field ≠ ar.legacy_field) →
      ∃ ops, synthesize ar =
          ops ++ [{ op := .remove, path := pointerOf ar.legacy_field }] ∧
        ∀ p ∈ ops, p.op = .add ∨ p.op = .replace) ∧
    ((ar.recommended_mappings ≠ [] ∧
        ∀ m ∈ ar.recommended_mappings, m.target_field = ar.legacy_field) →
      ∀ p ∈ synthesize ar, p.op = .replace) := by
  constructor
  · rintro ⟨m0, hm0, hne⟩
    have hnil : ar.recommended_mappings ≠ [] := by
      intro h
      rw [h] at hm0
      cases hm0
    have hasAdd :
        (ar.recommended_mappings.any fun m =>
          m.target_field ≠ ar.legacy_field) = true := by
      rw [List.any_eq_true]
      exact ⟨m0, hm0, decide_eq_true hne⟩
    refine ⟨ar.recommended_mappings.map fun m =>
        if m.target_field = ar.legacy_field then
          ({ op := .replace, path := pointerOf ar.legacy_field,
             value := some m.target_value } : JsonPatch)
        else
          { op := .add, path := pointerOf m.target_field,
            value := some m.target_value }, ?_, ?_⟩
    · rw [synthesize_eq_of_ne_nil ar hnil, hasAdd]
      simp
    · intro p hp
      rw [List.mem_map] at hp
      obtain ⟨x, hx, rfl⟩ := hp
      by_cases h : x.target_field = ar.legacy_field
      · exact Or.inr (by simp [h])
      · exact Or.inl (by simp [h])
  · rintro ⟨hnil, hall⟩
    have hasAdd :
        (ar.recommended_mappings.any fun m =>
          m.target_field ≠ ar.legacy_field) = false := by
      rw [List.any_eq_false]
      intro x hx
      simp [hall x hx]
    intro p hp
    rw [synthesize_eq_of_ne_nil ar hnil, hasAdd] at hp
    simp only [if_false, List.append_nil, List.mem_map, Bool.false_eq_true] at hp
    obtain ⟨x, hx, rfl⟩ := hp
    simp [hall x hx]

/-- C5 witness: the rename scenario (one `add` then the trailing `remove`)
and the pure-replace scenario (no `remove` at all) on the repo's two
standard fixtures. -/
theorem synthesize_add_before_remove_witness :
    (∃ ops, synthesize sampleAnalysis =
        ops ++ [{ op := .remove, path := pointerOf sampleAnalysis.legacy_field }] ∧
      ∀ p ∈ ops, p.op = .add ∨ p.op = .replace) ∧
    (∀ p ∈ synthesize replaceOnlyAnalysis, p.op = .replace) :=
  ⟨(synthesize_add_before_remove sampleAnalysis).1
      ⟨⟨"parent_sample_id", .str "HBM386.ZGKG.235", 95 / 100⟩,
        by simp [sampleAnalysis], by decide⟩,
   (synthesize_add_before_remove replaceOnlyAnalysis).2
      ⟨by simp [replaceOnlyAnalysis], by
        intro m hm
        simp [replaceOnlyAnalysis] at hm
        simp [hm, replaceOnlyAnalysis]⟩⟩

/-- C7 counterexample: the empty-mappings case does yield the single
`remove`, but `no_mapping_reason` is not necessarily populated — the
`AnalysisResult` model defaults it to `None` and nothing in the code sets
or checks it (the repo's own no-mapping test fixture omits it). -/
theorem no_mapping_reason_unset_counterexample :
    synthesize noMappingAnalysis =
      [{ op := .remove, path := "/deprecated_field" }] ∧
    noMappingAnalysis.recommended_mappings = [] ∧
    noMappingAnalysis.no_mapping_reason = none := by
  refine ⟨by decide, rfl, rfl⟩

/-- C7 (amended): for every analysis result with no recommended mappings
the synthesizer emits exactly one operation, a `remove` at the escaped
pointer of the legacy field; but the population of `no_mapping_reason` is
an instruction to the oracle, not an enforced invariant of the data
model. -/
theorem synthesize_empty_recommended_single_remove (ar : AnalysisResult)
    (h : ar.recommended_mappings = []) :
    synthesize ar = [{ op := .remove, path := pointerOf ar.legacy_field }] := by
  cases hrec : ar.recommended_mappings with
  | nil => simp [synthesize, hrec]
  | cons m ms => rw [hrec] at h; cases h

/-- C7 witness: the single-`remove` script on the concrete
`deprecated_field` fixture. -/
theorem synthesize_empty_recommended_single_remove_witness :
    synthesize noMappingAnalysis =
      [{ op := .remove, path := pointerOf noMappingAnalysis.legacy_field }] :=
  synthesize_empty_recommended_single_remove noMappingAnalysis rfl

end MetadataConverter
